import Mathlib

/-!
# Shallow embedding of the Rigour QA orchestration core

This file embeds, in Lean 4, the core data model and operations of the
`rigour_qa` Python package (packages/sdk-python/rigour_qa): the scene model
(`scene/schema.py`), the execution substrate (`engine/executor.py`), the edge
explorer (`engine/explorer.py`), the planner fallback (`engine/planner.py`),
the self-healer's flakiness tracker and diagnosis error handling
(`agents/healer.py`), the semantic judge error handling (`judges/base.py`) and
the per-scene pipeline (`runner.py`).

Modelling conventions:
* Python `float` values (durations, scores) are modelled as `Rat`. In the one
  place the code compares floats (`0.3 <= pass_rate <= 0.7` over window sizes
  3..10) the IEEE-double comparison agrees with the rational comparison, since
  distinct rationals p/n vs 3/10 or 7/10 with n <= 10 differ by >= 1/100, far
  above double rounding error, and equal rationals round to equal doubles.
* Calls to the external LLM service ("Reasoning Oracle") are modelled as
  environment-supplied data: the raw response text where the code parses text
  (planner), or the parse outcome where only the parse shape matters
  (diagnosis, judgment, edge-case suggestions).
* Strings are manipulated through structurally recursive helpers over
  `List Char` mirroring the Python string/regex operations used by the code;
  each helper documents the Python operation it models.
-/

namespace RigourQA

/-! ## String helpers (models of the Python string/regex operations) -/

/-- Model of Python `str.split(sep)[i]`-style scanning: split a character list
at the first occurrence of the (non-empty) pattern, returning the part before
the occurrence and the part after it; `none` when the pattern does not occur.
This is the semantics of finding the leftmost match of a literal pattern. -/
def splitFirst (pat : List Char) : List Char → Option (List Char × List Char)
  | [] => if pat.isEmpty then some ([], []) else none
  | c :: rest =>
    if pat.isPrefixOf (c :: rest) then
      some ([], (c :: rest).drop pat.length)
    else
      (splitFirst pat rest).map (fun p => (c :: p.1, p.2))

/-- Model of Python `str.split(ch)` for a single-character separator. -/
def splitOnChar (sep : Char) : List Char → List (List Char)
  | [] => [[]]
  | c :: rest =>
    let r := splitOnChar sep rest
    if c = sep then [] :: r
    else
      match r with
      | h :: t => (c :: h) :: t
      | [] => [[c]]

/-- Model of Python `str.strip()` (ASCII whitespace; the code only strips
oracle responses, which are ASCII-framed). -/
def stripChars (l : List Char) : List Char :=
  ((l.dropWhile Char.isWhitespace).reverse.dropWhile Char.isWhitespace).reverse

/-- Numeric value of a digit run, as Python `int(...)` computes it. -/
def natOfDigits (ds : List Char) : Nat :=
  ds.foldl (fun n c => n * 10 + (c.toNat - 48)) 0

/-- Model of `re.search(r'(\d+) <token>', output)` for a literal token such as
`" passed"`: scan left to right; at the first digit run that is immediately
followed by the token, return the numeric value of that run. -/
def scanCount (tok : List Char) : List Char → Option Nat
  | [] => none
  | c :: rest =>
    if c.isDigit then
      let ds := (c :: rest).takeWhile Char.isDigit
      let after := (c :: rest).dropWhile Char.isDigit
      if tok.isPrefixOf after then some (natOfDigits ds)
      else scanCount tok rest
    else scanCount tok rest

/-- Model of Python `needle in haystack` for strings (substring test). -/
def containsSub (needle : List Char) : List Char → Bool
  | [] => needle.isEmpty
  | c :: rest => needle.isPrefixOf (c :: rest) || containsSub needle rest

/-- Model of Python `str.lower()` (ASCII case folding; the scanned pytest
output is ASCII). -/
def lowerChars (l : List Char) : List Char :=
  l.map Char.toLower

/-- Model of Python `str.upper()`. -/
def upperChars (l : List Char) : List Char :=
  l.map Char.toUpper

/-- Model of CPython `str(uuid.uuid4())`: the 32 lowercase hex digits of a
128-bit value interleaved with hyphens in 8-4-4-4-12 groups (the version and
variant bit-fixing of `uuid4` does not change the shape and is omitted). -/
def hexDigit (n : Nat) : Char :=
  if n < 10 then Char.ofNat (48 + n) else Char.ofNat (87 + n)

/-- The `w` low-order hex digits of `n`, most significant first. -/
def hexPad (n w : Nat) : List Char :=
  (List.range w).reverse.map (fun i => hexDigit (n / 16 ^ i % 16))

/-- `str(uuid4())` for random bits `r` (see `hexPad`). -/
def uuid4String (r : Nat) : String :=
  ⟨hexPad (r / 2 ^ 96) 8 ++ '-' :: hexPad (r / 2 ^ 80) 4 ++
    '-' :: hexPad (r / 2 ^ 64) 4 ++ '-' :: hexPad (r / 2 ^ 48) 4 ++
    '-' :: hexPad r 12⟩

/-! ## Data model (`scene/schema.py`, `engine/types.py`, `connection.py`)

`created_at` timestamps and the authentication sub-config are omitted: they
are server-assigned / passed through verbatim and no verified operation reads
them.  `Any`-typed values reaching the core only ever via `str()`/`json.dumps`
interpolation are carried as their rendered strings. -/

inductive Priority where
  | critical | high | medium | low
  deriving DecidableEq, Repr

inductive AssertionType where
  | status_code | body_contains | body_schema | db_state
  | response_time | header_contains | semantic | custom
  deriving DecidableEq, Repr

/-- `Actor` (schema.py): auth config omitted (passed through, never read by
the verified operations). -/
structure Actor where
  role : String
  persona : Option String := none
  deriving DecidableEq, Repr

/-- `Step` (schema.py). `inputDump` carries `json.dumps(step.input or {})`,
the only rendering of `input` the core performs (planner fallback); a `None`
or absent input renders as `"{}"`. -/
structure Step where
  action : String
  inputDump : String := "\x7b\x7d"
  expect : Option String := none
  deriving DecidableEq, Repr

/-- `Assertion` (schema.py). `expected` is `Any` in the source; the core only
interpolates it into generated code via `str()`, so it is carried as that
rendered string. -/
structure Assertion where
  type : AssertionType
  target : String
  expected : String := ""
  semantic_prompt : Option String := none
  tolerance : Option Rat := none
  deriving DecidableEq, Repr

/-- `.value` of the `AssertionType` enum, as compared in planner.py. -/
def AssertionType.val : AssertionType → String
  | .status_code => "status_code"
  | .body_contains => "body_contains"
  | .body_schema => "body_schema"
  | .db_state => "db_state"
  | .response_time => "response_time"
  | .header_contains => "header_contains"
  | .semantic => "semantic"
  | .custom => "custom"

/-- `Scene` (schema.py). The `Optional[list]` step/assertion/edge-case fields
default to fresh empty lists (pydantic `default_factory=list`); the repository
never passes an explicit `None` for them, so they are carried as plain lists.
`metadata` is a string-to-string association list (the core writes only
string-rendered values into it). -/
structure Scene where
  id : String
  title : String
  description : String
  actor : Option Actor := none
  steps : List Step := []
  assertions : List Assertion := []
  edge_cases : List String := []
  tags : List String := []
  priority : Priority := .medium
  metadata : List (String × String) := []
  deriving DecidableEq, Repr

/-- Constructing a `Scene` as pydantic does: `id` defaults to `str(uuid4())`
on fresh random bits `r` when no explicit id is supplied
(`Field(default_factory=lambda: str(uuid4()))`). -/
def mkScene (r : Nat) (id? : Option String) (title description : String)
    (actor : Option Actor := none) (steps : List Step := [])
    (assertions : List Assertion := []) (edge_cases : List String := [])
    (tags : List String := []) (priority : Priority := .medium)
    (metadata : List (String × String) := []) : Scene :=
  { id := id?.getD (uuid4String r), title, description, actor, steps,
    assertions, edge_cases, tags, priority, metadata }

/-- `Scene.add_step` (schema.py): appends a step, returns the scene. -/
def Scene.add_step (s : Scene) (action : String)
    (inputDump : String := "\x7b\x7d") (expect : Option String := none) :
    Scene :=
  { s with steps := s.steps ++ [{ action, inputDump, expect }] }

/-- `Scene.add_assertion` (schema.py): appends an assertion. -/
def Scene.add_assertion (s : Scene) (type : AssertionType) (target : String)
    (expected : String) (semantic_prompt : Option String := none) : Scene :=
  { s with assertions :=
      s.assertions ++ [{ type, target, expected, semantic_prompt }] }

/-- `Scene.add_edge_case` (schema.py): appends an edge-case hint. -/
def Scene.add_edge_case (s : Scene) (description : String) : Scene :=
  { s with edge_cases := s.edge_cases ++ [description] }

/-- `SceneBuilder.with_tags` (builder.py): `self._scene.tags.extend(tags)`,
the only tag-adding mutation in the package. -/
def Scene.addTags (s : Scene) (ts : List String) : Scene :=
  { s with tags := s.tags ++ ts }

/-- `ExecutionStatus` (engine/types.py). -/
inductive ExecutionStatus where
  | passed | failed | error | skipped
  deriving DecidableEq, Repr

/-- `TestPlan` (engine/types.py). -/
structure TestPlan where
  id : String
  scene_id : String
  title : String
  description : String
  test_code : String
  steps_count : Nat
  estimated_duration : Rat := 5
  metadata : List (String × String) := []
  deriving DecidableEq, Repr

/-- `ExecutionResult` (engine/types.py). `response_data` is an optional
string-map (only its presence and a quality score derived from it are read by
the core); `metadata` holds the quality score the runner may attach:
`metadata["quality_score"] = <float> | None`. -/
structure ExecutionResult where
  plan_id : String
  status : ExecutionStatus
  passed : Bool
  duration : Rat := 0
  stdout : String := ""
  stderr : String := ""
  assertions_passed : Nat := 0
  assertions_failed : Nat := 0
  error_message : Option String := none
  response_data : Option (List (String × String)) := none
  metadata : List (String × Option Rat) := []
  deriving DecidableEq, Repr

/-- `JudgmentResult` (engine/types.py). -/
structure JudgmentResult where
  passed : Bool
  score : Rat
  reasoning : String
  suggestions : List String := []
  deriving DecidableEq, Repr

/-- `Diagnosis` (engine/types.py); unused `metadata` omitted. -/
structure Diagnosis where
  test_id : String
  root_cause : String
  failure_type : String
  is_flaky : Bool := false
  suggested_fixes : List String
  deriving DecidableEq, Repr

/-- `Connection` (connection.py): only `base_url` is read by the embedded
operations (planner fallback code); auth/header/timeout fields are passed
through verbatim to prompts and omitted here. -/
structure Connection where
  base_url : String
  deriving DecidableEq, Repr

/-- `RigourQAConfig` (runner.py). -/
structure RigourQAConfig where
  enable_edge_case_exploration : Bool := true
  enable_healing : Bool := true
  enable_quality_judgment : Bool := true
  enable_console_reporting : Bool := true
  max_edge_cases_per_scene : Nat := 8
  executor_timeout : Nat := 60
  deriving DecidableEq, Repr

/-- `SceneResult` (runner.py). -/
structure SceneResult where
  scene_id : String
  scene_title : String
  passed : Bool
  execution_result : ExecutionResult
  edge_case_results : List ExecutionResult := []
  healing_result : Option ExecutionResult := none
  edge_cases_count : Nat := 0
  deriving DecidableEq, Repr

/-! ## Execution substrate (`engine/executor.py`) -/

/-- Outcome of the `subprocess.run` call in `AgenticExecutor.execute`:
normal completion with an exit code and captured streams, a
`subprocess.TimeoutExpired`, or any other exception (spawn/I-O failure). -/
inductive ProcOutcome where
  | completed (returncode : Int) (stdout stderr : String)
  | timeout
  | exn (msg : String)
  deriving DecidableEq, Repr

/-- `AgenticExecutor._parse_pytest_output`: scan stdout for
`"(\d+) passed"` / `"(\d+) failed"` / `"(\d+) error"` counters; force
status=error, passed=false when an error counter matched or `"error"` occurs
in `output.lower()`; record the first line containing `FAILED` or `ERROR`
(stripped) as the error message. -/
def parsePytestOutput (result : ExecutionResult) (output : String) :
    ExecutionResult :=
  let chars := output.data
  let passedMatch := scanCount " passed".data chars
  let failedMatch := scanCount " failed".data chars
  let errorMatch := scanCount " error".data chars
  let r₁ :=
    match passedMatch with
    | some n => { result with assertions_passed := n }
    | none => result
  let r₂ :=
    match failedMatch with
    | some n => { r₁ with assertions_failed := n }
    | none => r₁
  let r₃ :=
    if errorMatch.isSome || containsSub "error".data (lowerChars chars) then
      { r₂ with status := .error, passed := false }
    else r₂
  let lines := splitOnChar '\n' chars
  match lines.find? (fun l =>
      containsSub "FAILED".data l || containsSub "ERROR".data l) with
  | some l => { r₃ with error_message := some (String.mk (stripChars l)) }
  | none => r₃

/-- `AgenticExecutor.execute`: classify one subprocess outcome into an
`ExecutionResult`.  `proc` is the subprocess outcome and `dur` the measured
wall-clock duration (both environment inputs).  The temp-file write and
best-effort unlink have no effect on the result and are not modelled. -/
def execute (timeout : Nat) (proc : ProcOutcome) (dur : Rat)
    (plan : TestPlan) : ExecutionResult :=
  let base : ExecutionResult :=
    { plan_id := plan.id, status := .passed, passed := true }
  let r :=
    match proc with
    | .completed rc out err =>
      parsePytestOutput
        { base with
          stdout := out
          stderr := err
          passed := rc == 0
          status := if rc == 0 then .passed else .failed } out
    | .timeout =>
      { base with
        status := .error
        passed := false
        error_message :=
          some ("Test timed out after " ++ toString timeout ++ " seconds") }
    | .exn msg =>
      { base with
        status := .error
        passed := false
        error_message := some msg }
  { r with duration := dur }

/-- The per-plan execution environment of a batch: subprocess outcome and
measured duration for each plan. -/
structure ExecEnv where
  proc : TestPlan → ProcOutcome
  dur : TestPlan → Rat

/-- One `self.execute(plan)` call under environment `env`. -/
def execOne (env : ExecEnv) (timeout : Nat) (plan : TestPlan) :
    ExecutionResult :=
  execute timeout (env.proc plan) (env.dur plan) plan

/-- `AgenticExecutor.execute_batch`: sequential mode is a list comprehension
over `execute`; parallel mode is `ThreadPoolExecutor.map(self.execute, plans)`
over 4 workers, whose documented semantics returns results in input order, so
both modes denote an order-preserving map (the worker pool affects timing
only). -/
def executeBatch (env : ExecEnv) (timeout : Nat) (plans : List TestPlan)
    (parallel : Bool) : List ExecutionResult :=
  if parallel then plans.map (execOne env timeout)
  else plans.map (execOne env timeout)

/-! ## Self-healer (`agents/healer.py`) -/

/-- `SelfHealer.is_flaky`: given the history already stored for a `test_id`
and the newly supplied `history` argument, extends the stored list, looks at
its last 10 entries (`[-10:]`), and classifies.  Returns the boolean verdict
together with the stored history as it is left after the call (the source
mutates `self.failure_history[test_id]` by `extend` and never truncates it).
`pass_rate` is a Python float `passed_count / len(recent)` compared against
the float literals 0.3 and 0.7; over the reachable window sizes (3..10) the
rational comparison used here coincides with the IEEE one (see file header).
-/
def isFlaky (stored history : List ExecutionResult) :
    Bool × List ExecutionResult :=
  let stored' := stored ++ history
  let recent := stored'.drop (stored'.length - 10)
  let verdict :=
    if recent.length < 3 then false
    else
      let passed_count := recent.countP (·.passed)
      let failed_count := recent.length - passed_count
      if failed_count = 0 || passed_count = 0 then false
      else
        let pass_rate : Rat := (passed_count : Rat) / (recent.length : Rat)
        let flaky := decide ((3 : Rat)/10 ≤ pass_rate ∧ pass_rate ≤ 7/10)
        if flaky && decide (2 ≤ failed_count) then true else false
  (verdict, stored')

/-- Shape of the oracle's structured (JSON) reply after the
`re.search(r'\x7b.*\x7d', ...)` + `json.loads` pipeline shared by
`SelfHealer.diagnose` and `SemanticJudge._judge_semantic`:
the decode raised `JSONDecodeError` (`parseFail`), produced a dict whose
fields are read with `.get` and per-field defaults (`obj`), or produced a
non-dict JSON value — possible only via the no-braces whole-text path, e.g. a
top-level JSON array — on which `.get` raises `AttributeError` (`nonObj`). -/
inductive OracleParse (α : Type) where
  | parseFail
  | obj (fields : α)
  | nonObj
  deriving DecidableEq, Repr

/-- The fields `SelfHealer.diagnose` reads from the decoded dict. -/
structure DiagFields where
  root_cause : Option String := none
  failure_type : Option String := none
  is_flaky : Option Bool := none
  suggested_fixes : Option (List String) := none
  deriving DecidableEq, Repr

/-- `SelfHealer.diagnose`, as a function of the failure being diagnosed and
the parse outcome of the oracle's reply.  On `JSONDecodeError` the source
substitutes the default dict `{"root_cause": "Unknown", "failure_type":
"error", "is_flaky": False, "suggested_fixes": ["Review test code and error
message"]}`; on a decoded dict it reads fields via `.get` with defaults; on a
decoded non-dict, `diagnosis_dict.get(...)` raises `AttributeError`, which is
not caught (`Except.error`). -/
def diagnose (failure : ExecutionResult) (p : OracleParse DiagFields) :
    Except String Diagnosis :=
  match p with
  | .parseFail =>
    .ok
      { test_id := failure.plan_id
        root_cause := "Unknown"
        failure_type := "error"
        is_flaky := false
        suggested_fixes := ["Review test code and error message"] }
  | .obj f =>
    .ok
      { test_id := failure.plan_id
        root_cause := f.root_cause.getD "Unknown"
        failure_type := f.failure_type.getD "error"
        is_flaky := f.is_flaky.getD false
        suggested_fixes := f.suggested_fixes.getD [] }
  | .nonObj =>
    .error "AttributeError: object has no attribute get"

/-! ## Semantic judge (`judges/base.py`) -/

/-- The fields `SemanticJudge._judge_semantic` reads from the decoded dict. -/
structure JudgeFields where
  passed : Option Bool := none
  score : Option Rat := none
  reasoning : Option String := none
  suggestions : Option (List String) := none
  deriving DecidableEq, Repr

/-- `SemanticJudge._judge_semantic`, as a function of the parse outcome of
the oracle's reply.  The whole oracle call and parse sits in one `try` whose
handler re-raises `RuntimeError("Failed to judge semantically: ...")`: an
undecodable reply (`JSONDecodeError`) and a decoded non-dict
(`AttributeError` from `.get`) both surface as a raised error; a decoded dict
yields a `JudgmentResult` with per-field `.get` defaults. -/
def judgeSemantic (p : OracleParse JudgeFields) :
    Except String JudgmentResult :=
  match p with
  | .parseFail =>
    .error "Failed to judge semantically: JSONDecodeError"
  | .obj f =>
    .ok
      { passed := f.passed.getD false
        score := f.score.getD 0
        reasoning := f.reasoning.getD "No reasoning provided"
        suggestions := f.suggestions.getD [] }
  | .nonObj =>
    .error "Failed to judge semantically: AttributeError"

/-! ## Planner (`engine/planner.py`) -/

/-- `AgenticPlanner._extract_code`: the leftmost, shortest
`re.search(r'<fence>python\n(.*?)\n<fence>', response, re.DOTALL)` match
(fence = three backticks) — i.e. the text between the first code fence and
the first closing fence after it — otherwise the stripped response when it
starts with `"def test_"`, otherwise `none`. -/
def extractCode (response : String) : Option String :=
  let fence := "```python\n".data
  let close := "\n```".data
  let codeMatch :=
    match splitFirst fence response.data with
    | some p => (splitFirst close p.2).map (fun q => String.mk q.1)
    | none => none
  match codeMatch with
  | some code => some code
  | none =>
    let stripped := stripChars response.data
    if "def test_".data.isPrefixOf stripped then some (String.mk stripped)
    else none

/-- The `"    response = client.<method>(...)"` line the planner fallback
emits for one step: `parts = step.action.split(' ', 1)`, `method = parts[0]`,
`path = parts[1] if len(parts) > 1 else "/"`; bodyless HTTP methods get no
json argument. -/
def stepCallLine (step : Step) : String :=
  let before := step.action.data.takeWhile (· ≠ ' ')
  let after := step.action.data.dropWhile (· ≠ ' ')
  let method : String := ⟨before⟩
  let path : String := if after.isEmpty then "/" else ⟨after.tail⟩
  let methodUp : String := ⟨upperChars method.data⟩
  let methodLow : String := ⟨lowerChars method.data⟩
  if methodUp = "GET" || methodUp = "DELETE" || methodUp = "HEAD" then
    "    response = client." ++ methodLow ++ "(\"" ++ path ++ "\")\n"
  else
    "    response = client." ++ methodLow ++ "(\"" ++ path ++ "\", json=" ++
      step.inputDump ++ ")\n"

/-- The fallback code emitted for one step (index `i`, counted from 1):
step comment, call line, and an `# Expected:` comment when `step.expect` is
truthy (neither `None` nor the empty string). -/
def stepBlock (i : Nat) (step : Step) : String :=
  "\n    # Step " ++ toString i ++ ": " ++ step.action ++ "\n" ++
    stepCallLine step ++
    (match step.expect with
     | some e => if e = "" then "" else "    # Expected: " ++ e ++ "\n"
     | none => "")

/-- The `for i, step in enumerate(scene.steps, 1)` loop of
`_generate_fallback_code`. -/
def stepsCode : Nat → List Step → String
  | _, [] => ""
  | i, st :: rest => stepBlock i st ++ stepsCode (i + 1) rest

/-- The fallback assertion emitted for one explicit assertion: only
`status_code` and `body_contains` assertion types generate code. -/
def assertionBlock (a : Assertion) : String :=
  match a.type with
  | .status_code =>
    "\n    assert response.status_code == " ++ a.expected ++
      ", \"Status code should be " ++ a.expected ++ "\"\n"
  | .body_contains =>
    "\n    assert \"" ++ a.expected ++ "\" in response.text, " ++
      "\"Response should contain " ++ a.expected ++ "\"\n"
  | _ => ""

/-- The default assertion `_generate_fallback_code` emits when the scene has
no explicit assertions: the response is not a server error. -/
def defaultAssertionCode : String :=
  "\n    assert response.status_code < 500, \"Should not return server error\""

/-- `AgenticPlanner._generate_fallback_code`: the mechanically synthesized
test artifact (`test_name = scene.id.replace('-', '_')[:20]`; per-step
method/path parsing; explicit assertions or the single default assertion). -/
def generateFallbackCode (scene : Scene) (conn : Connection) : String :=
  let test_name : String :=
    ⟨(scene.id.data.map (fun c => if c = '-' then '_' else c)).take 20⟩
  let steps_code := if scene.steps.isEmpty then "" else stepsCode 1 scene.steps
  let assertions_code :=
    if scene.assertions.isEmpty then defaultAssertionCode
    else String.join (scene.assertions.map assertionBlock)
  "import httpx\nimport pytest\n\ndef test_" ++ test_name ++
    "():\n    \"\"\"Test: " ++ scene.title ++ "\n    " ++ scene.description ++
    "\n    \"\"\"\n    client = httpx.Client(base_url=\"" ++ conn.base_url ++
    "\")\n" ++ steps_code ++ "\n" ++ assertions_code ++ "\n"

/-- `AgenticPlanner.plan`: extract code from the oracle's reply text; when
extraction yields nothing usable (`if not test_code:` — `None` or the empty
string), fall back to the mechanical artifact.  `pid` is the `str(uuid4())`
generated for the plan.  `steps_count = len(scene.steps) if scene.steps else
1`. -/
def plannerPlan (pid : String) (scene : Scene) (conn : Connection)
    (oracleText : String) : TestPlan :=
  let test_code :=
    match extractCode oracleText with
    | some c => if c = "" then generateFallbackCode scene conn else c
    | none => generateFallbackCode scene conn
  { id := pid
    scene_id := scene.id
    title := scene.title
    description := scene.description
    test_code
    steps_count := if scene.steps.isEmpty then 1 else scene.steps.length }

/-! ## Edge explorer (`engine/explorer.py`) -/

/-- One edge-case suggestion dict as read (via `.get`) by the explorer. -/
structure EdgeSpec where
  name : Option String := none
  description : Option String := none
  strategy : Option String := none
  expected_behavior : Option String := none
  priority : Option String := none
  deriving DecidableEq, Repr

/-- `EdgeExplorer._suggest_edge_cases`, as a function of the decoded
suggestion list (`json.loads` result; `[]` when decoding raised
`JSONDecodeError`): the source returns `edge_cases[:8]` — the cap is the
hardcoded literal 8, not the configuration value. -/
def suggestEdgeCases (parsed : List EdgeSpec) : List EdgeSpec :=
  parsed.take 8

/-- `EdgeExplorer._create_edge_case_scene`: builds the variant scene.
`uuid` is the generated `str(uuid4())` id.  The `metadata.update` on a scene
whose metadata starts empty is an append of the three linkage entries. -/
def createEdgeCaseScene (uuid : String) (orig : Scene) (spec : EdgeSpec) :
    Scene :=
  let base : Scene :=
    { id := uuid
      title := orig.title ++ " - " ++ spec.name.getD "Edge Case"
      description :=
        "Original: " ++ orig.description ++ "\n\nEdge Case: " ++
          spec.description.getD "" ++ "\nStrategy: " ++
          spec.strategy.getD "" ++ "\nExpected: " ++
          spec.expected_behavior.getD ""
      actor := orig.actor
      tags := orig.tags ++
        ["edge-case", "priority-" ++ spec.priority.getD "medium"]
      priority := orig.priority }
  let s₁ :=
    if orig.steps.isEmpty then base else { base with steps := orig.steps }
  let s₂ :=
    if orig.assertions.isEmpty then s₁
    else { s₁ with assertions := orig.assertions }
  { s₂ with
    metadata := s₂.metadata ++
      [("edge_case_type", spec.name.getD "unknown"),
       ("strategy", spec.strategy.getD ""),
       ("original_scene_id", orig.id)] }

/-- `EdgeExplorer.explore`: empty when the primary execution did not pass;
otherwise one variant scene per (capped) suggestion.  `edgeIds i` is the
`str(uuid4())` drawn for the i-th created scene. -/
def explore (edgeIds : Nat → String) (scene : Scene)
    (initial : ExecutionResult) (parsedSuggestions : List EdgeSpec) :
    List Scene :=
  if !initial.passed then []
  else
    (suggestEdgeCases parsedSuggestions).enum.map
      (fun p => createEdgeCaseScene (edgeIds p.1) scene p.2)

/-! ## Pipeline orchestrator (`runner.py`) -/

/-- The environment of one `RigourQA.run_scene` call: everything the run
observes from outside the core — oracle reply texts, freshly drawn uuids,
subprocess outcomes, and the oracle-backed healer/judge outcomes.
`diag` is the `Diagnosis` returned by `SelfHealer.diagnose` (see `diagnose`
for that call's own parse/error behaviour: a run whose diagnosis raises
produces no `SceneResult` at all, so `SceneResult` properties quantify over
completed runs); `healedCode` is `SelfHealer.heal`'s returned code text;
`qualityScore` is `QualityJudge.judge_response_quality(...).score`. -/
structure RunEnv where
  planText : Scene → String
  planId : Scene → String
  exec : ExecEnv
  suggParse : Scene → List EdgeSpec
  edgeId : Scene → Nat → String
  diag : ExecutionResult → Diagnosis
  healedCode : Diagnosis → String → String
  qualityScore : List (String × String) → Rat

/-- `RigourQA.run_scene`: the per-scene pipeline.  Console reporting is
display-only (reads the results, never writes) and is not modelled. -/
def runScene (env : RunEnv) (cfg : RigourQAConfig) (conn : Connection)
    (scene : Scene) : SceneResult :=
  let plan := plannerPlan (env.planId scene) scene conn (env.planText scene)
  let result := execOne env.exec cfg.executor_timeout plan
  let explored :=
    if cfg.enable_edge_case_exploration && result.passed then
      let edgeCases := explore (env.edgeId scene) scene result
        (env.suggParse scene)
      let edgePlans := edgeCases.map
        (fun ec => plannerPlan (env.planId ec) ec conn (env.planText ec))
      (executeBatch env.exec cfg.executor_timeout edgePlans true,
        edgeCases.length)
    else ([], 0)
  let healed :=
    if cfg.enable_healing && !result.passed then
      let diagnosis := env.diag result
      let healed_code := env.healedCode diagnosis plan.test_code
      let healedPlan : TestPlan :=
        { id := plan.id ++ "_healed"
          scene_id := plan.scene_id
          title := plan.title
          description := plan.description
          test_code := healed_code
          steps_count := plan.steps_count }
      let healedResult := execOne env.exec cfg.executor_timeout healedPlan
      (some healedResult, if healedResult.passed then true else result.passed)
    else (none, result.passed)
  let execFinal :=
    if cfg.enable_quality_judgment then
      { result with
        metadata := result.metadata ++
          [("quality_score", result.response_data.map env.qualityScore)] }
    else result
  { scene_id := scene.id
    scene_title := scene.title
    passed := healed.2
    execution_result := execFinal
    edge_case_results := explored.1
    healing_result := healed.1
    edge_cases_count := explored.2 }

/-! ## Shared concrete fixtures (used by witnesses and counterexamples) -/

/-- A minimal passing execution result. -/
def passedSample : ExecutionResult :=
  { plan_id := "t1", status := .passed, passed := true }

/-- A minimal failing execution result. -/
def failedSample : ExecutionResult :=
  { plan_id := "t1", status := .failed, passed := false }

/-- A minimal test plan. -/
def planSample : TestPlan :=
  { id := "p1", scene_id := "s1", title := "T", description := "D"
    test_code := "def test_x(): pass", steps_count := 1 }

/-! ## Helper lemmas -/

/-- The error-override signal `_parse_pytest_output` checks: an error-count
token matched, or `"error"` occurs in the lowercased output. -/
def errorSignal (out : String) : Bool :=
  (scanCount " error".data out.data).isSome ||
    containsSub "error".data (lowerChars out.data)

theorem parsePytestOutput_status (r : ExecutionResult) (out : String) :
    (parsePytestOutput r out).status =
      (if errorSignal out then .error else r.status) := by
  unfold parsePytestOutput errorSignal
  dsimp only
  split <;> split <;> split <;> split <;> rfl

theorem parsePytestOutput_passed (r : ExecutionResult) (out : String) :
    (parsePytestOutput r out).passed =
      (if errorSignal out then false else r.passed) := by
  unfold parsePytestOutput errorSignal
  dsimp only
  split <;> split <;> split <;> split <;> rfl

theorem parsePytestOutput_plan_id (r : ExecutionResult) (out : String) :
    (parsePytestOutput r out).plan_id = r.plan_id := by
  unfold parsePytestOutput
  dsimp only
  split <;> split <;> split <;> split <;> rfl

theorem execute_plan_id (timeout : Nat) (proc : ProcOutcome) (dur : Rat)
    (plan : TestPlan) :
    (execute timeout proc dur plan).plan_id = plan.id := by
  unfold execute
  cases proc <;> simp [parsePytestOutput_plan_id]

theorem execOne_plan_id (env : ExecEnv) (timeout : Nat) (plan : TestPlan) :
    (execOne env timeout plan).plan_id = plan.id :=
  execute_plan_id ..

/-! ## Claim theorems -/

/-- C3: for every execution that completes normally, if an error-count token
matches the captured stdout or the word "error" occurs case-insensitively
anywhere in that stdout, the returned `ExecutionResult` has status=error and
passed=false, overriding the exit-code-derived value (exit code 0 included);
otherwise status and passed are derived from the exit code (0 gives passed,
nonzero gives failed). -/
theorem execute_error_token_overrides_exit_code
    (timeout : Nat) (rc : Int) (out err : String) (dur : Rat)
    (plan : TestPlan) :
    (((scanCount " error".data out.data).isSome ||
        containsSub "error".data (lowerChars out.data)) = true →
      (execute timeout (.completed rc out err) dur plan).status = .error ∧
      (execute timeout (.completed rc out err) dur plan).passed = false) ∧
    (((scanCount " error".data out.data).isSome ||
        containsSub "error".data (lowerChars out.data)) = false →
      (execute timeout (.completed rc out err) dur plan).status =
        (if rc == 0 then .passed else .failed) ∧
      (execute timeout (.completed rc out err) dur plan).passed = (rc == 0)) := by
  have hsig : ((scanCount " error".data out.data).isSome ||
      containsSub "error".data (lowerChars out.data)) = errorSignal out := rfl
  rw [hsig]
  have hs :
      (execute timeout (.completed rc out err) dur plan).status =
        (if errorSignal out then .error
         else if rc == 0 then .passed else .failed) := by
    unfold execute
    dsimp only
    rw [parsePytestOutput_status]
  have hp :
      (execute timeout (.completed rc out err) dur plan).passed =
        (if errorSignal out then false else (rc == 0)) := by
    unfold execute
    dsimp only
    rw [parsePytestOutput_passed]
  constructor
  · intro h
    rw [hs, hp, h]
    exact ⟨rfl, rfl⟩
  · intro h
    rw [hs, hp, h]
    exact ⟨rfl, rfl⟩

/-- Witness for C3: concrete outputs exercising the override branch
(exit code 0 but "Error" in stdout forces status=error) and the
exit-code branch (clean stdout, nonzero exit gives status=failed). -/
theorem execute_error_token_overrides_exit_code_witness :
    (execute 60 (.completed 0 "1 passed. Error: boom" "") 0 planSample).status
        = .error ∧
    (execute 60 (.completed 2 "all good" "") 0 planSample).status = .failed := by
  constructor
  · exact ((execute_error_token_overrides_exit_code 60 0
      "1 passed. Error: boom" "" 0 planSample).1 (by decide)).1
  · have h := ((execute_error_token_overrides_exit_code 60 2
      "all good" "" 0 planSample).2 (by decide)).1
    simpa using h

/-- C8: `execute_batch` over N plans returns exactly N results, and the i-th
result corresponds to the i-th plan (`result[i].plan_id = plans[i].id`) for
either value of the parallel flag — completion timing never reorders
results, since both modes denote an order-preserving map. -/
theorem executeBatch_length_and_order (env : ExecEnv) (timeout : Nat)
    (plans : List TestPlan) (parallel : Bool) :
    (executeBatch env timeout plans parallel).length = plans.length ∧
    ∀ i : Nat,
      ((executeBatch env timeout plans parallel)[i]?).map (·.plan_id) =
        (plans[i]?).map (·.id) := by
  have hb : executeBatch env timeout plans parallel =
      plans.map (execOne env timeout) := by
    unfold executeBatch
    split <;> rfl
  constructor
  · rw [hb, List.length_map]
  · intro i
    rw [hb, List.getElem?_map]
    cases h : plans[i]? with
    | none => rfl
    | some p => simp [execOne_plan_id]

/-- The flakiness verdict characterised over the considered window (helper
for the C4 claim theorem). -/
theorem isFlaky_fst_iff (stored history : List ExecutionResult) :
    (isFlaky stored history).1 = true ↔
      (let recent :=
        (stored ++ history).drop ((stored ++ history).length - 10)
       3 ≤ recent.length ∧
       (3 : Rat)/10 ≤ (recent.countP (·.passed) : Rat) / (recent.length : Rat) ∧
       (recent.countP (·.passed) : Rat) / (recent.length : Rat) ≤ 7/10 ∧
       2 ≤ recent.length - recent.countP (·.passed)) := by
  unfold isFlaky
  dsimp only
  generalize (stored ++ history).drop ((stored ++ history).length - 10)
    = recent
  rcases Nat.lt_or_ge recent.length 3 with h3 | h3
  · rw [if_pos h3]
    constructor
    · intro h
      exact (Bool.false_ne_true h).elim
    · rintro ⟨hlen, -⟩
      omega
  · rw [if_neg (by omega)]
    by_cases hz : recent.length - recent.countP (·.passed) = 0 ∨
        recent.countP (·.passed) = 0
    · rw [if_pos (by simpa using hz)]
      constructor
      · intro h
        exact (Bool.false_ne_true h).elim
      · rintro ⟨hlen, hlo, _, hfail⟩
        rcases hz with hz | hz
        · omega
        · rw [hz] at hlo
          norm_num at hlo
    · rw [if_neg (by simpa using hz)]
      constructor
      · intro h
        by_cases hf : (decide ((3 : Rat)/10 ≤
              (recent.countP (·.passed) : Rat) / (recent.length : Rat) ∧
            (recent.countP (·.passed) : Rat) / (recent.length : Rat) ≤ 7/10)
            && decide (2 ≤ recent.length - recent.countP (·.passed))) = true
        · simp only [Bool.and_eq_true, decide_eq_true_eq] at hf
          exact ⟨h3, hf.1.1, hf.1.2, hf.2⟩
        · rw [if_neg hf] at h
          exact (Bool.false_ne_true h).elim
      · rintro ⟨hlen, hlo, hhi, hfail⟩
        rw [if_pos]
        simp only [Bool.and_eq_true, decide_eq_true_eq]
        exact ⟨⟨hlo, hhi⟩, hfail⟩

/-- C4: the flakiness check returns false when fewer than 3 samples exist in
the considered window, and otherwise returns true exactly when, over the most
recent 10 entries, pass_rate = passes/total satisfies 0.3 ≤ pass_rate ≤ 0.7
and the number of failures is at least 2; in particular 2 passes + 2 fails +
1 pass yields true and 10 consecutive passes yields false. -/
theorem isFlaky_window_classification (stored history : List ExecutionResult) :
    ((isFlaky stored history).1 = true ↔
      (let recent :=
        (stored ++ history).drop ((stored ++ history).length - 10)
       3 ≤ recent.length ∧
       (3 : Rat)/10 ≤ (recent.countP (·.passed) : Rat) / (recent.length : Rat) ∧
       (recent.countP (·.passed) : Rat) / (recent.length : Rat) ≤ 7/10 ∧
       2 ≤ recent.length - recent.countP (·.passed))) ∧
    (isFlaky []
      [passedSample, passedSample, failedSample, failedSample,
        passedSample]).1 = true ∧
    (isFlaky [] (List.replicate 10 passedSample)).1 = false := by
  refine ⟨isFlaky_fst_iff stored history, ?_, ?_⟩
  · refine (isFlaky_fst_iff [] _).mpr ?_
    simp only [List.nil_append, List.length_cons, List.length_nil]
    norm_num [List.countP_cons, List.countP_nil, passedSample, failedSample]
  · rw [← Bool.not_eq_true, isFlaky_fst_iff]
    have hc : (List.replicate 10 passedSample).countP (·.passed) = 10 := by
      have h := (List.countP_eq_length (p := fun x : ExecutionResult =>
        x.passed) (l := List.replicate 10 passedSample)).mpr
        (fun a ha => by rw [List.eq_of_mem_replicate ha]; rfl)
      simpa using h
    simp only [List.nil_append, List.length_replicate, Nat.sub_self,
      List.drop_zero, hc]
    rintro ⟨-, -, hhi, -⟩
    norm_num at hhi

/-- C7 counterexample: one flakiness check fed 11 results leaves 11 entries
in the stored per-test-id history — the source `extend`s
`self.failure_history[test_id]` and never truncates it, so the stored history
is not capped at the 10 most recent entries. -/
theorem isFlaky_stored_history_exceeds_ten :
    ¬ (isFlaky [] (List.replicate 11 passedSample)).2.length ≤ 10 := by
  decide

/-- C7 (amended): a flakiness check appends the new results to the stored
per-test-id history and keeps every entry (the stored history is unbounded);
only the verdict is computed over a window of at most the 10 most recent
entries — the verdict equals the one computed from that window alone. -/
theorem isFlaky_append_and_window (stored history : List ExecutionResult) :
    (isFlaky stored history).2 = stored ++ history ∧
    ((stored ++ history).drop ((stored ++ history).length - 10)).length ≤ 10 ∧
    (isFlaky stored history).1 =
      (isFlaky
        ((stored ++ history).drop ((stored ++ history).length - 10)) []).1 := by
  refine ⟨rfl, ?_, ?_⟩
  · rw [List.length_drop]
    omega
  · unfold isFlaky
    dsimp only
    rw [List.append_nil]
    have hw :
        ((stored ++ history).drop ((stored ++ history).length - 10)).length
          ≤ 10 := by
      rw [List.length_drop]
      omega
    rw [Nat.sub_eq_zero_of_le hw, List.drop_zero]

/-! Fixtures for the runner claims. -/

/-- The default runner configuration (`RigourQAConfig()`). -/
def cfgDefault : RigourQAConfig := {}

/-- A concrete connection. -/
def connSample : Connection := { base_url := "http://localhost" }

/-- A concrete scene. -/
def sceneSample : Scene := { id := "s1", title := "T", description := "D" }

/-- A run environment whose primary execution fails (exit code 1) and whose
healed execution passes (exit code 0). -/
def envHealBase : RunEnv :=
  { planText := fun _ => "no code"
    planId := fun _ => "p1"
    exec :=
      { proc := fun p =>
          if p.id = "p1" then .completed 1 "" "" else .completed 0 "" ""
        dur := fun _ => 0 }
    suggParse := fun _ => []
    edgeId := fun _ _ => "e"
    diag := fun r =>
      { test_id := r.plan_id, root_cause := "c", failure_type := "t"
        suggested_fixes := [] }
    healedCode := fun _ c => c
    qualityScore := fun _ => 0 }

/-- C1: a scene's final `passed` is true iff the primary execution passed or
a healing execution passed; and whenever a healing result exists the retained
primary `execution_result` still reports `passed = false` (healing only runs
on a failed primary and never rewrites it). -/
theorem runScene_passed_iff_healing (env : RunEnv) (cfg : RigourQAConfig)
    (conn : Connection) (scene : Scene) :
    ((runScene env cfg conn scene).passed = true ↔
      (runScene env cfg conn scene).execution_result.passed = true ∨
      ∃ h, (runScene env cfg conn scene).healing_result = some h ∧
        h.passed = true) ∧
    ((runScene env cfg conn scene).healing_result.isSome = true →
      (runScene env cfg conn scene).execution_result.passed = false) := by
  constructor
  · unfold runScene
    dsimp only
    split_ifs <;> simp_all
  · unfold runScene
    dsimp only
    split_ifs <;> simp_all

/-- Witness for C1: under `envHealBase` the primary execution fails, healing
(enabled by default) produces a passing healed execution, and the scene's
final verdict is true while the retained primary result still reports
failure. -/
theorem runScene_passed_iff_healing_witness :
    (runScene envHealBase cfgDefault connSample sceneSample).passed = true ∧
    (runScene envHealBase cfgDefault connSample
      sceneSample).execution_result.passed = false ∧
    (runScene envHealBase cfgDefault connSample
      sceneSample).healing_result.isSome = true := by
  refine ⟨by decide, ?_, by decide⟩
  exact (runScene_passed_iff_healing envHealBase cfgDefault connSample
    sceneSample).2 (by decide)

/-- C2: whenever a scene's primary execution fails, edge-case exploration is
skipped entirely — `edge_case_results` is empty and `edge_cases_count` is 0 —
regardless of whether exploration is enabled in the configuration. -/
theorem runScene_failure_skips_exploration (env : RunEnv)
    (cfg : RigourQAConfig) (conn : Connection) (scene : Scene)
    (hfail : (runScene env cfg conn scene).execution_result.passed = false) :
    (runScene env cfg conn scene).edge_case_results = [] ∧
    (runScene env cfg conn scene).edge_cases_count = 0 := by
  have hr : (execOne env.exec cfg.executor_timeout
      (plannerPlan (env.planId scene) scene conn
        (env.planText scene))).passed = false := by
    revert hfail
    unfold runScene
    dsimp only
    split_ifs <;> simp_all
  constructor <;>
    · unfold runScene
      dsimp only
      split_ifs <;> simp_all

/-- Witness for C2: under `envHealBase` the primary execution fails while
exploration is enabled by default, and no edge cases are produced. -/
theorem runScene_failure_skips_exploration_witness :
    cfgDefault.enable_edge_case_exploration = true ∧
    (runScene envHealBase cfgDefault connSample
      sceneSample).edge_case_results = [] := by
  refine ⟨by decide, ?_⟩
  exact (runScene_failure_skips_exploration envHealBase cfgDefault connSample
    sceneSample (by decide)).1

/-- Helper for C5: each step's synthesized call line occurs in the code the
steps loop emits. -/
theorem stepsCode_contains_call (st : Step) :
    ∀ (l : List Step) (i : Nat), st ∈ l →
      ∃ a b, stepsCode i l = a ++ stepCallLine st ++ b := by
  intro l
  induction l with
  | nil =>
    intro i h
    cases h
  | cons hd tl ih =>
    intro i hmem
    rcases List.mem_cons.mp hmem with rfl | hmem
    · refine ⟨"\n    # Step " ++ toString i ++ ": " ++ st.action ++ "\n",
        (match st.expect with
         | some e => if e = "" then "" else "    # Expected: " ++ e ++ "\n"
         | none => "") ++ stepsCode (i + 1) tl, ?_⟩
      show stepBlock i st ++ stepsCode (i + 1) tl = _
      unfold stepBlock
      simp only [String.append_assoc]
    · obtain ⟨a, b, hab⟩ := ih (i + 1) hmem
      exact ⟨stepBlock i hd ++ a, b, by
        show stepBlock i hd ++ stepsCode (i + 1) tl = _
        rw [hab]
        simp only [String.append_assoc]⟩

/-- Helper for C5: extracting a middle factor of an appended string. -/
theorem append_mid_extract (P N ac M x s a b : String)
    (h : x = a ++ s ++ b) :
    ∃ A B, P ++ x ++ N ++ ac ++ M = A ++ s ++ B := by
  subst h
  exact ⟨P ++ a, b ++ N ++ ac ++ M, by simp only [String.append_assoc]⟩

/-- C5: planning always produces a `TestPlan`; when the oracle's reply yields
no usable code (`_extract_code` returns nothing, or an empty extraction), the
plan's code is the mechanical fallback artifact, which contains the
method-and-path call line parsed from each step's action string and — when
the scene has no explicit assertions — the single default
response-is-not-a-server-error assertion. -/
theorem planner_never_aborts_fallback (pid : String) (scene : Scene)
    (conn : Connection) (oracleText : String)
    (h : extractCode oracleText = none ∨ extractCode oracleText = some "") :
    (plannerPlan pid scene conn oracleText).test_code =
      generateFallbackCode scene conn ∧
    (scene.assertions = [] →
      ∃ pre, generateFallbackCode scene conn =
        pre ++ defaultAssertionCode ++ "\n") ∧
    (∀ st ∈ scene.steps, ∃ a b,
      generateFallbackCode scene conn = a ++ stepCallLine st ++ b) := by
  refine ⟨?_, ?_, ?_⟩
  · unfold plannerPlan
    dsimp only
    rcases h with h | h <;> rw [h]
    rfl
  · intro ha
    unfold generateFallbackCode
    rw [ha]
    simp only [List.isEmpty_nil]
    rw [if_pos trivial]
    exact ⟨_, rfl⟩
  · intro st hst
    have hne : scene.steps.isEmpty = false := by
      cases hs : scene.steps with
      | nil => rw [hs] at hst; cases hst
      | cons a l => rfl
    obtain ⟨a, b, hab⟩ := stepsCode_contains_call st scene.steps 1 hst
    unfold generateFallbackCode
    rw [if_neg (by simp [hne])]
    exact append_mid_extract _ _ _ _ _ _ a b hab

/-- Witness for C5: a scene with one step and no assertions, and an oracle
reply with no extractable code. -/
theorem planner_never_aborts_fallback_witness :
    (plannerPlan "p1" (Scene.add_step sceneSample "GET /users") connSample
        "oracle had nothing").test_code =
      generateFallbackCode (Scene.add_step sceneSample "GET /users")
        connSample ∧
    (∃ pre, generateFallbackCode (Scene.add_step sceneSample "GET /users")
        connSample = pre ++ defaultAssertionCode ++ "\n") ∧
    (∃ a b, generateFallbackCode (Scene.add_step sceneSample "GET /users")
        connSample =
      a ++ stepCallLine { action := "GET /users" } ++ b) := by
  have h := planner_never_aborts_fallback "p1"
    (Scene.add_step sceneSample "GET /users") connSample
    "oracle had nothing" (Or.inl (by decide))
  exact ⟨h.1, h.2.1 (by decide), h.2.2 { action := "GET /users" } (by decide)⟩

/-- Configuration with the edge-case maximum set to 3. -/
def cfgSmallCap : RigourQAConfig := { max_edge_cases_per_scene := 3 }

/-- A run environment whose primary execution passes and whose oracle returns
8 parsed edge-case suggestions. -/
def envEdgeEight : RunEnv :=
  { planText := fun _ => "x"
    planId := fun _ => "p1"
    exec := { proc := fun _ => .completed 0 "" "", dur := fun _ => 0 }
    suggParse := fun _ => List.replicate 8 {}
    edgeId := fun _ i => "e" ++ toString i
    diag := fun r =>
      { test_id := r.plan_id, root_cause := "c", failure_type := "t"
        suggested_fixes := [] }
    healedCode := fun _ c => c
    qualityScore := fun _ => 0 }

/-- C6 (failing-input evaluation): with `max_edge_cases_per_scene = 3` and an
oracle returning 8 parsed suggestions on a passing primary execution, the
scene still produces 8 edge cases — `EdgeExplorer._suggest_edge_cases` caps
at the hardcoded literal `[:8]` and never reads the configured maximum; the
cap is the literal 8 for every configuration. -/
theorem explorer_cap_ignores_configured_max :
    cfgSmallCap.max_edge_cases_per_scene = 3 ∧
    (runScene envEdgeEight cfgSmallCap connSample
      sceneSample).edge_cases_count = 8 ∧
    ∀ parsed : List EdgeSpec, (suggestEdgeCases parsed).length ≤ 8 := by
  refine ⟨rfl, by decide, ?_⟩
  intro parsed
  unfold suggestEdgeCases
  rw [List.length_take]
  exact Nat.min_le_left ..

/-- C9 counterexample: oracle output that decodes to a non-object JSON value
(e.g. a top-level array) is malformed for the diagnosis protocol, yet the
diagnosis path raises (`diagnosis_dict.get` on a list raises
`AttributeError`, which `diagnose` does not catch) instead of substituting
the safe default. -/
theorem diagnose_raises_on_non_object :
    diagnose failedSample (OracleParse.nonObj : OracleParse DiagFields) =
      Except.error "AttributeError: object has no attribute get" := rfl

/-- C9 (amended): when the oracle's reply cannot be decoded as JSON, the
semantic judge raises a fatal error to its caller while the diagnosis path
substitutes the safe default (root_cause="Unknown", failure_type="error")
without raising; a reply that decodes to a non-object value makes both paths
raise. -/
theorem oracle_protocol_failure_handling (failure : ExecutionResult) :
    (∃ e, judgeSemantic OracleParse.parseFail = Except.error e) ∧
    diagnose failure OracleParse.parseFail = Except.ok
      { test_id := failure.plan_id
        root_cause := "Unknown"
        failure_type := "error"
        is_flaky := false
        suggested_fixes := ["Review test code and error message"] } ∧
    (∃ e, judgeSemantic (OracleParse.nonObj : OracleParse JudgeFields) =
      Except.error e) ∧
    (∃ e, diagnose failure (OracleParse.nonObj : OracleParse DiagFields) =
      Except.error e) :=
  ⟨⟨_, rfl⟩, rfl, ⟨_, rfl⟩, ⟨_, rfl⟩⟩

/-- The scene mutations named by C10: adding steps, assertions, edge-case
hints (the `Scene` fluent methods) and tags (`SceneBuilder.with_tags`). -/
inductive SceneMutation where
  | addStep (action : String) (inputDump : String) (expect : Option String)
  | addAssertion (type : AssertionType) (target expected : String)
  | addEdgeCase (description : String)
  | addTags (ts : List String)

/-- Apply one mutation. -/
def applyMutation (s : Scene) : SceneMutation → Scene
  | .addStep a i e => s.add_step a i e
  | .addAssertion t tg ex => s.add_assertion t tg ex
  | .addEdgeCase d => s.add_edge_case d
  | .addTags ts => s.addTags ts

/-- Apply a sequence of mutations. -/
def applyMutations (s : Scene) (ms : List SceneMutation) : Scene :=
  ms.foldl applyMutation s

/-- C10 counterexample: the model accepts an explicitly supplied empty id —
`Scene(id="", title="T", description="D")` validates (the `id` field is a
plain `str` with no non-emptiness constraint), so not every `Scene` has a
non-empty id. -/
theorem scene_accepts_explicit_empty_id :
    (mkScene 0 (some "") "T" "D").id = "" := rfl

/-- C10 (amended): `Scene.id` is non-empty whenever it is generated (no
explicit id supplied at construction — the default is `str(uuid4())`, a
36-character string), and the id is unchanged by any sequence of mutations
that add steps, assertions, edge-case hints, or tags. -/
theorem scene_generated_id_nonempty_and_stable :
    (∀ (r : Nat) (title description : String),
      (mkScene r none title description).id ≠ "") ∧
    (∀ (s : Scene) (ms : List SceneMutation),
      (applyMutations s ms).id = s.id) := by
  constructor
  · intro r t d hempty
    have hlen : (uuid4String r).data.length = 36 := by
      simp [uuid4String, hexPad]
    rw [show (mkScene r none t d).id = uuid4String r from rfl] at hempty
    rw [hempty] at hlen
    simp at hlen
  · intro s ms
    induction ms generalizing s with
    | nil => rfl
    | cons m tl ih =>
      have hstep : (applyMutation s m).id = s.id := by
        cases m <;> rfl
      calc (applyMutations s (m :: tl)).id
          = (applyMutations (applyMutation s m) tl).id := rfl
        _ = (applyMutation s m).id := ih _
        _ = s.id := hstep

/-- Witness for C4: the concrete 2-passes + 2-fails + 1-pass history is
classified flaky. -/
theorem isFlaky_window_classification_witness :
    (isFlaky []
      [passedSample, passedSample, failedSample, failedSample,
        passedSample]).1 = true :=
  (isFlaky_window_classification []
    [passedSample, passedSample, failedSample, failedSample,
      passedSample]).2.1

/-- Witness for C8: a concrete one-plan batch yields one result carrying the
plan's id. -/
theorem executeBatch_length_and_order_witness :
    (executeBatch { proc := fun _ => .completed 0 "" "", dur := fun _ => 0 }
      60 [planSample] true).length = 1 ∧
    ((executeBatch { proc := fun _ => .completed 0 "" "", dur := fun _ => 0 }
      60 [planSample] true)[0]?).map (·.plan_id) = some "p1" := by
  have h := executeBatch_length_and_order
    { proc := fun _ => .completed 0 "" "", dur := fun _ => 0 }
    60 [planSample] true
  refine ⟨by rw [h.1]; rfl, ?_⟩
  rw [h.2 0]
  rfl

/-- Witness for C10 (amended): a generated id is non-empty and a concrete
mutation keeps the id. -/
theorem scene_generated_id_nonempty_and_stable_witness :
    (mkScene 7 none "T" "D").id ≠ "" ∧
    (applyMutations sceneSample
      [SceneMutation.addStep "GET /" "\x7b\x7d" none,
        SceneMutation.addTags ["smoke"]]).id = sceneSample.id :=
  ⟨scene_generated_id_nonempty_and_stable.1 7 "T" "D",
    scene_generated_id_nonempty_and_stable.2 sceneSample _⟩

end RigourQA
